import Mathlib

/-!
Verification of the streaming relay and admission-control core of the
`golang-ai-stream` server.

The development shallowly embeds the Go source:

* `RateLimiter` / `tryConsume`  — `middleware/ratelimit` (token bucket);
  Go `float64` arithmetic is idealized as exact rational arithmetic `ℚ`.
* `ChatResponse`, `writeSSEMessage`, `validateRequest`, `handleChat`,
  `relay` — `handlers/chat.go`.
* `healthEndpoint` — the `/health` route of `main.go`, wired through the
  `RateLimit` middleware exactly as `r.Use` does.

Concurrency in `HandleChat` (one receive goroutine feeding a buffered
error channel, raced by a `select` against context cancellation) is
embedded as a deterministic trace function parameterized by an explicit
schedule: the point at which the parent observes cancellation, and the
branch the `select` takes when both channels are ready.  The embedding
serializes at `stream.Recv()` boundaries: one loop iteration of the
receive goroutine (receive, possibly emit) is treated as atomic.
-/

namespace GoAIStream

/-- Rate limiter state, mirroring `middleware.RateLimiter`
(tokens, capacity, refillRate : float64; lastTimestamp : time.Time).
Timestamps are modelled as rational numbers of seconds, so that
`now.Sub(lastTimestamp).Seconds()` becomes `now - lastTimestamp`. -/
structure RateLimiter where
  tokens        : ℚ
  capacity      : ℚ
  refillRate    : ℚ
  lastTimestamp : ℚ
deriving DecidableEq, Repr

/-- Mirrors `middleware.NewRateLimiter(requestsPerSecond float64)`:
tokens, capacity and refillRate are all initialized to
`requestsPerSecond`, and the timestamp to the current time. -/
def NewRateLimiter (requestsPerSecond now : ℚ) : RateLimiter :=
  { tokens := requestsPerSecond
    capacity := requestsPerSecond
    refillRate := requestsPerSecond
    lastTimestamp := now }

/-- Mirrors `(*RateLimiter).tryConsume` (middleware, lines 28-42):
refill lazily from elapsed time, clamp with `min` to capacity, update the
timestamp, then consume one token when at least one is available.
Returns the admission decision and the updated state. -/
def tryConsume (rl : RateLimiter) (now : ℚ) : Bool × RateLimiter :=
  let timePassed := now - rl.lastTimestamp
  let refilled := min rl.capacity (rl.tokens + timePassed * rl.refillRate)
  if refilled ≥ 1 then
    (true, { rl with tokens := refilled - 1, lastTimestamp := now })
  else
    (false, { rl with tokens := refilled, lastTimestamp := now })

/-- Modelled from the spec (§4.1 RateLimiter contract, word for word):
"compute elapsed time since the last refill timestamp, increase the token
count by elapsed_seconds × refill_rate, clamp to capacity, update the
refill timestamp, then — if at least one token is available — deduct one
token and return admitted=true; otherwise return admitted=false without
mutating the token count further."  Used only to compare against
`tryConsume`, the definition taken from the source. -/
def tryConsumeSpec (rl : RateLimiter) (now : ℚ) : Bool × RateLimiter :=
  let elapsed := now - rl.lastTimestamp
  let increased := rl.tokens + elapsed * rl.refillRate
  let clamped := if increased > rl.capacity then rl.capacity else increased
  let updated : RateLimiter := { rl with tokens := clamped, lastTimestamp := now }
  if updated.tokens ≥ 1 then
    (true, { updated with tokens := updated.tokens - 1 })
  else
    (false, updated)

/-- One SSE event payload, mirroring `models.ChatResponse`
(fields `content`, `request_id`, `type`). -/
structure ChatResponse where
  content   : String
  requestID : String
  type      : String
deriving DecidableEq, Repr

/-- The `error`-typed event built at several places in `HandleChat`. -/
def errorEvent (requestID msg : String) : ChatResponse :=
  { content := msg, requestID := requestID, type := "error" }

/-- The terminal event of the `<-r.Context().Done()` branch
(chat.go lines 148-152). -/
def clientDisconnectedEvent (requestID : String) : ChatResponse :=
  { content := "Client disconnected", requestID := requestID, type := "error" }

/-- Error value returned by one `stream.Recv()` call: `context.Canceled`,
`io.EOF`, or any other error.  In `HandleChat` the receive loop stops at
the first error and sends it on `errCh`. -/
inductive RecvErr where
  | canceled
  | eof
  | other
deriving DecidableEq, Repr

/-- Schedule abstraction for the cancellation race in `HandleChat`:
either the request context is never cancelled, or the parent's `select`
observes `r.Context().Done()` after the receive goroutine has completed
`k` atomic Recv iterations; `pickCtx` resolves the `select` when both the
done channel and `errCh` are ready simultaneously. -/
inductive CancelSchedule where
  | never
  | afterIters (k : Nat) (pickCtx : Bool)
deriving DecidableEq, Repr

/-- The receive goroutine's event output (chat.go lines 120-143): for each
successfully received fragment, skip it when its delta content is empty,
otherwise write one `content`-typed SSE event carrying exactly that text. -/
def pumpEvents (requestID : String) : List String → List ChatResponse
  | [] => []
  | c :: rest =>
    if c = "" then pumpEvents requestID rest
    else { content := c, requestID := requestID, type := "content" } :: pumpEvents requestID rest

/-- The parent's handling of the error received on `errCh`
(chat.go lines 155-175): `context.Canceled` is swallowed with no event,
`io.EOF` yields one `done` event with empty content, anything else yields
one generic `error` event. -/
def terminalEvents (requestID : String) : RecvErr → List ChatResponse
  | RecvErr.canceled => []
  | RecvErr.eof => [{ content := "", requestID := requestID, type := "done" }]
  | RecvErr.other => [errorEvent requestID "Failed to create chat completion stream"]

/-- Result of the streaming phase: the SSE events written for the request
and the number of times the upstream stream's `Close()` ran. -/
structure RelayResult where
  events     : List ChatResponse
  closeCount : Nat
deriving DecidableEq, Repr

/-- The streaming phase of `HandleChat` after the upstream stream was
opened (chat.go lines 117-176).  The upstream behavior is the list of
fragments the stream yields followed by the error that ends the receive
loop.  With no cancellation the parent blocks on `errCh` until the
goroutine has pumped every fragment and sent the final error.  When the
parent observes cancellation after `k` completed iterations: if the
goroutine still has Recv calls ahead (`k ≤ frags.length`, the final
error-producing Recv is iteration `frags.length + 1`), `errCh` is empty,
so the `select` takes the context branch, emits `Client disconnected` and
returns, and the deferred `stream.Close()` makes the goroutine's next
Recv fail without producing further events; otherwise both `select`
branches are ready and `pickCtx` decides.  The deferred `Close` runs
exactly once on every path. -/
def relay (requestID : String) (frags : List String) (finalErr : RecvErr)
    (sched : CancelSchedule) : RelayResult :=
  match sched with
  | CancelSchedule.never =>
    { events := pumpEvents requestID frags ++ terminalEvents requestID finalErr
      closeCount := 1 }
  | CancelSchedule.afterIters k pickCtx =>
    if k ≤ frags.length then
      { events := pumpEvents requestID (frags.take k) ++ [clientDisconnectedEvent requestID]
        closeCount := 1 }
    else if pickCtx then
      { events := pumpEvents requestID frags ++ [clientDisconnectedEvent requestID]
        closeCount := 1 }
    else
      { events := pumpEvents requestID frags ++ terminalEvents requestID finalErr
        closeCount := 1 }

/-- Go's `len` on a string counts UTF-8 bytes. -/
def goLen (s : String) : Nat := s.utf8ByteSize

/-- Go's `unicode.IsSpace`, the predicate `strings.TrimSpace` trims by:
the Unicode White_Space property. -/
def isGoSpace (c : Char) : Bool :=
  (0x9 ≤ c.toNat && c.toNat ≤ 0xd) || c.toNat = 0x20 || c.toNat = 0x85 ||
  c.toNat = 0xa0 || c.toNat = 0x1680 || (0x2000 ≤ c.toNat && c.toNat ≤ 0x200a) ||
  c.toNat = 0x2028 || c.toNat = 0x2029 || c.toNat = 0x202f || c.toNat = 0x205f ||
  c.toNat = 0x3000

/-- Go's `strings.TrimSpace`: drop leading and trailing white space. -/
def trimSpace (s : String) : String :=
  String.mk (((s.toList.dropWhile isGoSpace).reverse.dropWhile isGoSpace).reverse)

/-- The message of `validateRequest` for a blank prompt (chat.go line 45). -/
def emptyPromptMsg : String := "prompt cannot be empty"

/-- The message of `validateRequest` for an oversized prompt
(chat.go line 48). -/
def tooLongMsg (maxPromptLength : Nat) : String :=
  "prompt exceeds maximum length of " ++ toString maxPromptLength ++ " characters"

/-- Mirrors `(*ChatHandler).validateRequest` (chat.go lines 43-51):
reject a prompt that is blank after trimming white space, then reject a
prompt whose byte length exceeds `config.MaxPromptLength`.  Returns the
error message, or `none` when the prompt is accepted. -/
def validateRequest (maxPromptLength : Nat) (prompt : String) : Option String :=
  if trimSpace prompt = "" then some emptyPromptMsg
  else if goLen prompt > maxPromptLength then some (tooLongMsg maxPromptLength)
  else none

/-- The request body after `json.Decode`: either malformed JSON or a
decoded `models.ChatRequest` carrying a prompt. -/
inductive RequestBody where
  | malformed
  | valid (prompt : String)
deriving DecidableEq, Repr

/-- Outcome of `h.client.CreateChatCompletionStream`: an opened stream
whose subsequent behavior is `frags` then `finalErr`, or a failure. -/
inductive OpenResult where
  | ok (frags : List String) (finalErr : RecvErr)
  | fail
deriving DecidableEq, Repr

/-- Observable outcome of one `HandleChat` execution. -/
structure HandlerResult where
  events       : List ChatResponse
  streamOpened : Bool
  closeCount   : Nat
deriving DecidableEq, Repr

/-- `HandleChat` (chat.go lines 53-177) after the flusher capability
check succeeded: decode the body, validate the prompt, open the upstream
stream, then run the streaming phase.  Each early-return path emits
exactly the single `error` event the source builds there and never opens
the upstream stream. -/
def handleChat (requestID : String) (maxPromptLength : Nat) (body : RequestBody)
    (openResult : OpenResult) (sched : CancelSchedule) : HandlerResult :=
  match body with
  | RequestBody.malformed =>
    { events := [errorEvent requestID "Invalid request payload"]
      streamOpened := false, closeCount := 0 }
  | RequestBody.valid prompt =>
    match validateRequest maxPromptLength prompt with
    | some msg =>
      { events := [errorEvent requestID msg]
        streamOpened := false, closeCount := 0 }
    | none =>
      match openResult with
      | OpenResult.fail =>
        { events := [errorEvent requestID "Failed to create chat completion stream"]
          streamOpened := false, closeCount := 0 }
      | OpenResult.ok frags finalErr =>
        let r := relay requestID frags finalErr sched
        { events := r.events, streamOpened := true, closeCount := r.closeCount }

/-- Status and body of a plain (non-streaming) HTTP response. -/
structure HTTPResponse where
  status : Nat
  body   : String
deriving DecidableEq, Repr

/-- The `/health` route handler of `main.go` (lines 86-89): write status
200 and body `OK`, consulting nothing. -/
def healthHandler : HTTPResponse := { status := 200, body := "OK" }

/-- The response written by
`errors.ErrTooManyRequests("Rate limit exceeded").RespondWithError(w)`
(middleware lines 54-56): status 429; the body is the `APIError` JSON
document carrying the message `Rate limit exceeded`, abbreviated here to
that message. -/
def rateLimitedResponse : HTTPResponse :=
  { status := 429, body := "Rate limit exceeded" }

/-- Mirrors `middleware.RateLimit` (middleware lines 51-61): consult the
shared token bucket; on denial write the 429 response and stop, otherwise
run the next handler. -/
def rateLimitMiddleware (rl : RateLimiter) (now : ℚ) (next : HTTPResponse) :
    HTTPResponse × RateLimiter :=
  let step := tryConsume rl now
  if step.1 then (next, step.2) else (rateLimitedResponse, step.2)

/-- `GET /health` as wired in `main.go`: `r.Use(middleware.RateLimit(...))`
applies the rate-limit middleware to every matched route, including
`/health` (the Logger, SecurityHeaders and CORS middlewares only add
headers on a GET request and never change the status or body). -/
def healthEndpoint (rl : RateLimiter) (now : ℚ) : HTTPResponse × RateLimiter :=
  rateLimitMiddleware rl now healthHandler

/-- Outcome of running a Go function: it returns (possibly carrying a
non-nil error value), or a runtime fault aborts it. -/
inductive GoOutcome where
  | returned (err : Option String)
  | crashed (msg : String)
deriving DecidableEq, Repr

/-- The Go runtime message for calling a method through a nil interface
value. -/
def nilPointerMsg : String :=
  "runtime error: invalid memory address or nil pointer dereference"

/-- Mirrors `writeSSEMessage` (chat.go lines 179-192).  `json.Marshal` of
a `models.ChatResponse` cannot fail and the write to the response writer
succeeds, so control always reaches the unconditional `flusher.Flush()`
on line 190; the `flusher` argument is `none` exactly when the caller's
`w.(http.Flusher)` type assertion failed, and invoking `Flush` on that
nil interface value is a runtime fault, not a returned error. -/
def writeSSEMessage (flusher : Option Unit) (chunk : ChatResponse) : GoOutcome :=
  match flusher with
  | some _ => GoOutcome.returned none
  | none =>
    let _ := chunk
    GoOutcome.crashed nilPointerMsg

/-- The transport-capability check at the top of `HandleChat`
(chat.go lines 62-72): when `w` does not implement `http.Flusher`, the
handler builds the `Streaming unsupported by client` error chunk and
passes the nil `flusher` straight into `writeSSEMessage`. -/
def handleChatFlusherCheck (wIsFlusher : Bool) (requestID : String) : GoOutcome :=
  if wIsFlusher then GoOutcome.returned none
  else writeSSEMessage none (errorEvent requestID "Streaming unsupported by client")

/-! ## Theorems -/

/-- Claim C2: on every `tryConsume` call, in every starting state, the
token count is first increased by elapsed seconds times the refill rate
and clamped to capacity, the refill timestamp is set to the current time,
and then one token is deducted and `true` returned when at least one
token is available, otherwise `false` is returned with no further change:
`tryConsume` (from the source) coincides with `tryConsumeSpec` (worded
from the spec) on all inputs. -/
theorem tryConsume_matches_spec (rl : RateLimiter) (now : ℚ) :
    tryConsume rl now = tryConsumeSpec rl now := by
  simp only [tryConsume, tryConsumeSpec]
  rcases le_or_lt (rl.tokens + (now - rl.lastTimestamp) * rl.refillRate) rl.capacity with h | h
  · rw [min_eq_right h, if_neg (not_lt.mpr h)]
  · rw [min_eq_left h.le, if_pos h]

/-- Claim C3: from any state with `0 ≤ tokens ≤ capacity`, a nonnegative
refill rate and a nonnegative elapsed time, the state after `tryConsume`
(admitted or denied) again satisfies `0 ≤ tokens ≤ capacity`, and the
capacity itself is unchanged.  (`0 ≤ refillRate` holds for every limiter
the code builds: `NewRateLimiter` sets `refillRate = capacity`, neither
field is ever mutated, and `capacity ≥ tokens ≥ 0`; `lastTimestamp ≤ now`
holds because Go's monotonic clock makes successive `time.Now` readings
nondecreasing.) -/
theorem tryConsume_preserves_token_bounds (rl : RateLimiter) (now : ℚ)
    (htok : 0 ≤ rl.tokens) (hcap : rl.tokens ≤ rl.capacity)
    (hrate : 0 ≤ rl.refillRate) (hclock : rl.lastTimestamp ≤ now) :
    0 ≤ (tryConsume rl now).2.tokens ∧
      (tryConsume rl now).2.tokens ≤ (tryConsume rl now).2.capacity ∧
      (tryConsume rl now).2.capacity = rl.capacity := by
  have hcap0 : (0:ℚ) ≤ rl.capacity := le_trans htok hcap
  have hmul : 0 ≤ (now - rl.lastTimestamp) * rl.refillRate :=
    mul_nonneg (by linarith) hrate
  simp only [tryConsume]
  by_cases h1 : min rl.capacity (rl.tokens + (now - rl.lastTimestamp) * rl.refillRate) ≥ 1
  · rw [if_pos h1]
    have hXc : min rl.capacity (rl.tokens + (now - rl.lastTimestamp) * rl.refillRate)
        ≤ rl.capacity := min_le_left _ _
    refine ⟨?_, ?_, rfl⟩
    · show 0 ≤ min rl.capacity (rl.tokens + (now - rl.lastTimestamp) * rl.refillRate) - 1
      linarith
    · show min rl.capacity (rl.tokens + (now - rl.lastTimestamp) * rl.refillRate) - 1
        ≤ rl.capacity
      linarith
  · rw [if_neg h1]
    have hX0 : 0 ≤ min rl.capacity (rl.tokens + (now - rl.lastTimestamp) * rl.refillRate) :=
      le_min hcap0 (by linarith)
    exact ⟨hX0, min_le_left _ _, rfl⟩

/-- Witness for C3 at a concrete state: tokens 5, capacity 10, refill
rate 10, one second elapsed. -/
theorem tryConsume_preserves_token_bounds_witness :
    0 ≤ (tryConsume { tokens := 5, capacity := 10, refillRate := 10, lastTimestamp := 0 } 1).2.tokens ∧
      (tryConsume { tokens := 5, capacity := 10, refillRate := 10, lastTimestamp := 0 } 1).2.tokens
        ≤ (tryConsume { tokens := 5, capacity := 10, refillRate := 10, lastTimestamp := 0 } 1).2.capacity ∧
      (tryConsume { tokens := 5, capacity := 10, refillRate := 10, lastTimestamp := 0 } 1).2.capacity = 10 :=
  tryConsume_preserves_token_bounds
    { tokens := 5, capacity := 10, refillRate := 10, lastTimestamp := 0 } 1
    (by norm_num) (by norm_num) (by norm_num) (by norm_num)

/-- Claim C8 (counterexample): with an empty token bucket and no elapsed
time, `GET /health` is answered by the rate-limit middleware with the 429
response, not with 200 `OK` — the claim that the response never depends
on the rate limiter state is false. -/
theorem health_rate_limited_counterexample :
    (healthEndpoint { tokens := 0, capacity := 10, refillRate := 10, lastTimestamp := 0 } 0).1
      = rateLimitedResponse
  ∧ (healthEndpoint { tokens := 0, capacity := 10, refillRate := 10, lastTimestamp := 0 } 0).1
      ≠ healthHandler := by
  have h : tryConsume { tokens := 0, capacity := 10, refillRate := 10, lastTimestamp := 0 } 0
      = (false, { tokens := 0, capacity := 10, refillRate := 10, lastTimestamp := 0 }) := by
    unfold tryConsume
    norm_num [min_def]
  constructor
  · simp [healthEndpoint, rateLimitMiddleware, h]
  · simp [healthEndpoint, rateLimitMiddleware, h, rateLimitedResponse, healthHandler]

/-- Claim C8 (amended): `GET /health` responds 200 `OK` exactly when the
rate limiter — which `main.go` applies to every route via `r.Use`,
`/health` included — admits the request; on denial it responds 429, so
the response does depend on the limiter state. -/
theorem health_depends_on_rate_limiter (rl : RateLimiter) (now : ℚ) :
    (healthEndpoint rl now).1
      = if (tryConsume rl now).1 then healthHandler else rateLimitedResponse := by
  simp only [healthEndpoint, rateLimitMiddleware]
  cases h : (tryConsume rl now).1 <;> simp [h]

/-- Every event the receive goroutine writes is `content`-typed. -/
theorem pumpEvents_all_content (requestID : String) :
    ∀ frags : List String, ∀ e ∈ pumpEvents requestID frags, e.type = "content" := by
  intro frags
  induction frags with
  | nil =>
    intro e he
    simp [pumpEvents] at he
  | cons c rest ih =>
    intro e he
    simp only [pumpEvents] at he
    by_cases hc : c = ""
    · rw [if_pos hc] at he
      exact ih e he
    · rw [if_neg hc] at he
      rcases List.mem_cons.mp he with rfl | hmem
      · rfl
      · exact ih e hmem

/-- Every relay trace splits as a block of `content` events followed by
an empty or one-element terminal tail of type `done` or `error`. -/
theorem relay_events_structure (requestID : String) (frags : List String)
    (finalErr : RecvErr) (sched : CancelSchedule) :
    ∃ cs tail, (relay requestID frags finalErr sched).events = cs ++ tail
      ∧ (∀ e ∈ cs, e.type = "content")
      ∧ (tail = [] ∨ ∃ t, tail = [t] ∧ (t.type = "done" ∨ t.type = "error")) := by
  cases sched with
  | never =>
    refine ⟨pumpEvents requestID frags, terminalEvents requestID finalErr, rfl,
      pumpEvents_all_content requestID frags, ?_⟩
    cases finalErr
    · exact Or.inl rfl
    · exact Or.inr ⟨_, rfl, Or.inl rfl⟩
    · exact Or.inr ⟨_, rfl, Or.inr rfl⟩
  | afterIters k pickCtx =>
    by_cases hk : k ≤ frags.length
    · refine ⟨pumpEvents requestID (frags.take k), [clientDisconnectedEvent requestID],
        ?_, pumpEvents_all_content requestID _, Or.inr ⟨_, rfl, Or.inr rfl⟩⟩
      simp [relay, if_pos hk]
    · cases hpick : pickCtx with
      | true =>
        refine ⟨pumpEvents requestID frags, [clientDisconnectedEvent requestID],
          ?_, pumpEvents_all_content requestID _, Or.inr ⟨_, rfl, Or.inr rfl⟩⟩
        simp [relay, if_neg hk]
      | false =>
        refine ⟨pumpEvents requestID frags, terminalEvents requestID finalErr,
          ?_, pumpEvents_all_content requestID _, ?_⟩
        · simp [relay, if_neg hk]
        · cases finalErr
          · exact Or.inl rfl
          · exact Or.inr ⟨_, rfl, Or.inl rfl⟩
          · exact Or.inr ⟨_, rfl, Or.inr rfl⟩

/-- The event list of `handleChat` on a validated prompt has the same
structure: `content` events then an at-most-one-element terminal tail. -/
theorem handleChat_events_structure (requestID : String) (maxPromptLength : Nat)
    (prompt : String) (op : OpenResult) (sched : CancelSchedule)
    (hval : validateRequest maxPromptLength prompt = none) :
    ∃ cs tail,
      (handleChat requestID maxPromptLength (RequestBody.valid prompt) op sched).events
        = cs ++ tail
      ∧ (∀ e ∈ cs, e.type = "content")
      ∧ (tail = [] ∨ ∃ t, tail = [t] ∧ (t.type = "done" ∨ t.type = "error")) := by
  cases op with
  | fail =>
    refine ⟨[], [errorEvent requestID "Failed to create chat completion stream"], ?_, ?_, ?_⟩
    · simp [handleChat, hval]
    · intro e he
      simp at he
    · exact Or.inr ⟨_, rfl, Or.inr rfl⟩
  | ok frags finalErr =>
    obtain ⟨cs, tail, heq, hcs, htail⟩ := relay_events_structure requestID frags finalErr sched
    refine ⟨cs, tail, ?_, hcs, htail⟩
    rw [← heq]
    simp [handleChat, hval]

/-- A content-block-plus-terminal-tail list satisfies the three Boolean
shape checks used in the claim statements. -/
theorem shape_of_structure (l : List ChatResponse)
    (h : ∃ cs tail, l = cs ++ tail ∧ (∀ e ∈ cs, e.type = "content")
      ∧ (tail = [] ∨ ∃ t, tail = [t] ∧ (t.type = "done" ∨ t.type = "error"))) :
    (l.dropLast.all fun e => e.type == "content") = true
  ∧ (l.all fun e => e.type == "content" || e.type == "done" || e.type == "error") = true
  ∧ (l.all fun e => e.type != "connected") = true := by
  obtain ⟨cs, tail, rfl, hcs, htail⟩ := h
  have hknown : ∀ e ∈ cs ++ tail,
      e.type = "content" ∨ e.type = "done" ∨ e.type = "error" := by
    intro e he
    rcases List.mem_append.mp he with h1 | h1
    · exact Or.inl (hcs e h1)
    · rcases htail with rfl | ⟨t, rfl, ht⟩
      · simp at h1
      · rcases List.mem_singleton.mp h1 with rfl
        exact Or.inr ht
  refine ⟨?_, ?_, ?_⟩
  · rw [List.all_eq_true]
    intro e he
    have hmem : e ∈ cs := by
      rcases htail with rfl | ⟨t, rfl, ht⟩
      · rw [List.append_nil] at he
        exact List.dropLast_subset _ he
      · rwa [List.dropLast_concat] at he
    have := hcs e hmem
    simp [this]
  · rw [List.all_eq_true]
    intro e he
    rcases hknown e he with h1 | h1 | h1 <;> simp [h1]
  · rw [List.all_eq_true]
    intro e he
    rcases hknown e he with h1 | h1 | h1 <;> simp [h1]

/-- Claim C1 (counterexample): the handler never emits a `connected`
event — on a validated request whose stream immediately signals
end-of-stream after one fragment, the first emitted event is already a
`content` event — and a validated request can end with no terminal event
at all: when the upstream receive returns a cancellation-derived error
and the `select` takes the error-channel branch, the trace is empty. -/
theorem handleChat_connected_counterexample :
    ((handleChat "r1" 100 (RequestBody.valid "hi") (OpenResult.ok ["a"] RecvErr.eof)
        CancelSchedule.never).events.countP fun e => e.type == "connected") = 0
  ∧ (handleChat "r1" 100 (RequestBody.valid "hi") (OpenResult.ok ["a"] RecvErr.eof)
        CancelSchedule.never).events
      = [{ content := "a", requestID := "r1", type := "content" },
         { content := "", requestID := "r1", type := "done" }]
  ∧ (handleChat "r1" 100 (RequestBody.valid "hi") (OpenResult.ok [] RecvErr.canceled)
        (CancelSchedule.afterIters 1 false)).events = [] := by
  decide

/-- Claim C1 (amended): for every request whose prompt passes validation,
the emitted events are zero or more `content` events followed by at most
one terminal event of type `done` or `error`; no event of any type is
emitted after a terminal event, and no `connected` event is ever emitted.
(The code never produces a `connected` event, and when the upstream
receive error is cancellation-derived the relay can finish with zero
terminal events, so `exactly one terminal` weakens to `at most one`.) -/
theorem handleChat_events_shape (requestID : String) (maxPromptLength : Nat)
    (prompt : String) (op : OpenResult) (sched : CancelSchedule)
    (hval : validateRequest maxPromptLength prompt = none) :
    ((handleChat requestID maxPromptLength (RequestBody.valid prompt) op sched).events.dropLast.all
      fun e => e.type == "content") = true
  ∧ ((handleChat requestID maxPromptLength (RequestBody.valid prompt) op sched).events.all
      fun e => e.type == "content" || e.type == "done" || e.type == "error") = true
  ∧ ((handleChat requestID maxPromptLength (RequestBody.valid prompt) op sched).events.all
      fun e => e.type != "connected") = true :=
  shape_of_structure _
    (handleChat_events_structure requestID maxPromptLength prompt op sched hval)

/-- Witness for C1 at a concrete validated request. -/
theorem handleChat_events_shape_witness :
    ((handleChat "r1" 100 (RequestBody.valid "hi") (OpenResult.ok ["a"] RecvErr.eof)
        CancelSchedule.never).events.dropLast.all fun e => e.type == "content") = true
  ∧ ((handleChat "r1" 100 (RequestBody.valid "hi") (OpenResult.ok ["a"] RecvErr.eof)
        CancelSchedule.never).events.all
      fun e => e.type == "content" || e.type == "done" || e.type == "error") = true
  ∧ ((handleChat "r1" 100 (RequestBody.valid "hi") (OpenResult.ok ["a"] RecvErr.eof)
        CancelSchedule.never).events.all fun e => e.type != "connected") = true :=
  handleChat_events_shape "r1" 100 "hi" (OpenResult.ok ["a"] RecvErr.eof)
    CancelSchedule.never (by decide)

/-- Claim C4 (counterexample): on the upstream script `a`, empty, `b`,
end-of-stream, the relay emits no `connected` event at all, so the
claimed `connected` event preceding the three events does not exist. -/
theorem relay_abc_no_connected_counterexample :
    ((relay "r1" ["a", "", "b"] RecvErr.eof CancelSchedule.never).events.countP
      fun e => e.type == "connected") = 0 := by
  decide

/-- Claim C4 (amended): for an upstream stream yielding `a`, the empty
fragment, `b` and then end-of-stream, exactly three SSE events are
emitted, in order: `content` `a`, `content` `b`, and `done` with empty
content; the empty fragment produces no event and no `connected` event is
emitted. -/
theorem relay_abc_trace :
    (relay "r1" ["a", "", "b"] RecvErr.eof CancelSchedule.never).events
      = [{ content := "a", requestID := "r1", type := "content" },
         { content := "b", requestID := "r1", type := "content" },
         { content := "", requestID := "r1", type := "done" }] := by
  decide

/-- Claim C5: when the request context is cancelled while the upstream
stream still has fragments ahead, exactly one `error` event with content
`Client disconnected` is emitted, it is the last event of the trace (no
event of any type follows it), and the stream's deferred `Close` runs
exactly once. -/
theorem cancelled_relay_single_disconnect (requestID : String) (frags : List String)
    (finalErr : RecvErr) (k : Nat) (pickCtx : Bool) (hk : k < frags.length) :
    ((relay requestID frags finalErr (CancelSchedule.afterIters k pickCtx)).events.countP
      fun e => e == clientDisconnectedEvent requestID) = 1
  ∧ (relay requestID frags finalErr (CancelSchedule.afterIters k pickCtx)).events.getLast?
      = some (clientDisconnectedEvent requestID)
  ∧ (relay requestID frags finalErr (CancelSchedule.afterIters k pickCtx)).closeCount = 1 := by
  have hle : k ≤ frags.length := le_of_lt hk
  simp only [relay, if_pos hle]
  refine ⟨?_, ?_, trivial⟩
  · rw [List.countP_append]
    have h0 : ((pumpEvents requestID (frags.take k)).countP
        fun e => e == clientDisconnectedEvent requestID) = 0 := by
      rw [List.countP_eq_zero]
      intro e he
      have ht := pumpEvents_all_content requestID _ e he
      simp only [beq_iff_eq]
      intro heq
      rw [heq] at ht
      simp [clientDisconnectedEvent] at ht
    rw [h0]
    simp
  · exact List.getLast?_concat _

/-- Witness for C5: cancellation observed before two pending fragments. -/
theorem cancelled_relay_single_disconnect_witness :
    ((relay "r1" ["x", "y"] RecvErr.eof (CancelSchedule.afterIters 0 true)).events.countP
      fun e => e == clientDisconnectedEvent "r1") = 1
  ∧ (relay "r1" ["x", "y"] RecvErr.eof (CancelSchedule.afterIters 0 true)).events.getLast?
      = some (clientDisconnectedEvent "r1")
  ∧ (relay "r1" ["x", "y"] RecvErr.eof (CancelSchedule.afterIters 0 true)).closeCount = 1 :=
  cancelled_relay_single_disconnect "r1" ["x", "y"] RecvErr.eof 0 true (by decide)

/-- Claim C6: at the failing input — the upstream receive returns
`context.Canceled` concurrently with context cancellation — the duplicate
cancellation error is indeed swallowed, but the number of terminal events
depends on which ready `select` branch runs: the context branch emits the
one `Client disconnected` event, while the error-channel branch returns
with zero terminal events, although its comment says the case was
`already handled by context.Done()`. -/
theorem cancel_race_terminal_events :
    (relay "r1" [] RecvErr.canceled (CancelSchedule.afterIters 1 true)).events
      = [clientDisconnectedEvent "r1"]
  ∧ (relay "r1" [] RecvErr.canceled (CancelSchedule.afterIters 1 false)).events = []
  ∧ ((relay "r1" [] RecvErr.canceled (CancelSchedule.afterIters 1 false)).events.countP
      fun e => e.type == "done" || e.type == "error") = 0 := by
  decide

/-- Claim C7: when `CreateChatCompletionStream` fails, exactly one
`error` event with content `Failed to create chat completion stream` is
emitted, nothing follows it, and no upstream stream is ever opened. -/
theorem open_failure_single_error (requestID : String) (maxPromptLength : Nat)
    (prompt : String) (sched : CancelSchedule)
    (hval : validateRequest maxPromptLength prompt = none) :
    (handleChat requestID maxPromptLength (RequestBody.valid prompt)
        OpenResult.fail sched).events
      = [errorEvent requestID "Failed to create chat completion stream"]
  ∧ (handleChat requestID maxPromptLength (RequestBody.valid prompt)
        OpenResult.fail sched).streamOpened = false := by
  simp [handleChat, hval]

/-- Witness for C7 at a concrete validated request. -/
theorem open_failure_single_error_witness :
    (handleChat "r1" 100 (RequestBody.valid "hi") OpenResult.fail
        CancelSchedule.never).events
      = [errorEvent "r1" "Failed to create chat completion stream"]
  ∧ (handleChat "r1" 100 (RequestBody.valid "hi") OpenResult.fail
        CancelSchedule.never).streamOpened = false :=
  open_failure_single_error "r1" 100 "hi" CancelSchedule.never (by decide)

/-- Claim C9 (counterexample): a whitespace-only prompt of four bytes
against a configured maximum of three is longer than the maximum, yet
validation rejects it with `prompt cannot be empty` — not with the
claimed `prompt exceeds maximum length of 3 characters` — because the
blank check (on the trimmed prompt) runs first. -/
theorem whitespace_prompt_counterexample :
    goLen "    " > 3
  ∧ validateRequest 3 "    " = some emptyPromptMsg
  ∧ validateRequest 3 "    " ≠ some (tooLongMsg 3) := by
  decide

/-- Claim C9 (amended): an empty prompt is rejected with
`prompt cannot be empty`; a prompt that is longer than the configured
maximum `N` (in bytes, as Go's `len`) and is not whitespace-only is
rejected with `prompt exceeds maximum length of N characters`
(a whitespace-only prompt is rejected as empty regardless of length);
in both cases the handler emits that message as a single `error` event
and no upstream stream is opened. -/
theorem validation_rejections (maxPromptLength : Nat) (prompt requestID : String)
    (op : OpenResult) (sched : CancelSchedule)
    (hne : trimSpace prompt ≠ "") (hlong : goLen prompt > maxPromptLength) :
    validateRequest maxPromptLength "" = some emptyPromptMsg
  ∧ (handleChat requestID maxPromptLength (RequestBody.valid "") op sched).events
      = [errorEvent requestID emptyPromptMsg]
  ∧ (handleChat requestID maxPromptLength (RequestBody.valid "") op sched).streamOpened = false
  ∧ validateRequest maxPromptLength prompt = some (tooLongMsg maxPromptLength)
  ∧ (handleChat requestID maxPromptLength (RequestBody.valid prompt) op sched).events
      = [errorEvent requestID (tooLongMsg maxPromptLength)]
  ∧ (handleChat requestID maxPromptLength (RequestBody.valid prompt) op sched).streamOpened
      = false := by
  have htrim : trimSpace "" = "" := by decide
  have h0 : validateRequest maxPromptLength "" = some emptyPromptMsg := by
    unfold validateRequest
    rw [if_pos htrim]
  have h1 : validateRequest maxPromptLength prompt = some (tooLongMsg maxPromptLength) := by
    unfold validateRequest
    rw [if_neg hne, if_pos hlong]
  refine ⟨h0, ?_, ?_, h1, ?_, ?_⟩ <;> simp [handleChat, h0, h1]

/-- Witness for C9: maximum length 3, oversized prompt `abcd`. -/
theorem validation_rejections_witness :
    validateRequest 3 "" = some emptyPromptMsg
  ∧ (handleChat "r1" 3 (RequestBody.valid "") OpenResult.fail CancelSchedule.never).events
      = [errorEvent "r1" emptyPromptMsg]
  ∧ (handleChat "r1" 3 (RequestBody.valid "") OpenResult.fail
      CancelSchedule.never).streamOpened = false
  ∧ validateRequest 3 "abcd" = some (tooLongMsg 3)
  ∧ (handleChat "r1" 3 (RequestBody.valid "abcd") OpenResult.fail CancelSchedule.never).events
      = [errorEvent "r1" (tooLongMsg 3)]
  ∧ (handleChat "r1" 3 (RequestBody.valid "abcd") OpenResult.fail
      CancelSchedule.never).streamOpened = false :=
  validation_rejections 3 "abcd" "r1" OpenResult.fail CancelSchedule.never
    (by decide) (by decide)

/-- Claim C10: when the response writer does not implement
`http.Flusher`, `HandleChat` passes the nil `flusher` from the failed
type assertion into `writeSSEMessage`, which unconditionally invokes
`Flush` on it, so the `Streaming unsupported by client` path aborts with
a nil-interface dereference instead of returning an error value. -/
theorem nil_flusher_crashes (requestID : String) :
    handleChatFlusherCheck false requestID = GoOutcome.crashed nilPointerMsg
  ∧ ∀ e : Option String, handleChatFlusherCheck false requestID ≠ GoOutcome.returned e := by
  refine ⟨rfl, ?_⟩
  intro e h
  simp [handleChatFlusherCheck, writeSSEMessage] at h

end GoAIStream
